import Mathlib

/-!
Shallow embedding of the METAR decoder of this repository: the parsing
portion of `fetch_metar` in `scripts/metar_logger.py` (lines 139-258) and
its duplicate in `scripts/weather_logger.py` (lines 1189-1344), together
with proofs about the decoded fields.

Raw reports are `List Char`; tokens are the whitespace-separated groups
produced by Python's `str.split()`.

Numeric modelling: the Python `float` values the decoder produces are
modelled as exact fractions (`PyQ`, an unnormalised numerator/denominator
pair with a `toRat` semantics map).  The decoder never compares floats for
equality — it only compares them with `<` against the constants
`0.5`, `1`, `3` — so exact rational semantics is faithful up to binary
floating-point rounding on pathological inputs, which no claim exercises.
Python `datetime(...)` construction is modelled by an explicit range check
(`timeOk`); the `ValueError` it raises on an out-of-range field, and the
`ZeroDivisionError` raised by a zero denominator in a visibility fraction,
are the two `LoopErr` outcomes of the token loop.  The ISO string
`strftime('%Y-%m-%dT%H:%M:00Z')` is kept as its information content, the
`(year, month, day, hour, minute)` tuple.
-/

namespace MetarSpec

/-- ASCII digit test, the `\d` class of the source regexes, spelled as an
explicit ten-way disjunction so that case analysis stays elementary. -/
def pyDigit (c : Char) : Bool :=
  c = '0' || c = '1' || c = '2' || c = '3' || c = '4' ||
  c = '5' || c = '6' || c = '7' || c = '8' || c = '9'

/-- Numeric value of an ASCII digit. -/
def digitVal (c : Char) : Nat := c.toNat - 48

/-- Python `int()` on a string of decimal digits. -/
def digitsToNat (l : List Char) : Nat := l.foldl (fun a c => 10 * a + digitVal c) 0

/-- One whitespace-delimited group of a report. -/
abbrev Tok := List Char

/-- Accumulator form of `str.split()`. -/
def splitWsAux : List Char → List Char → List Tok
  | [], acc => if acc.isEmpty then [] else [acc.reverse]
  | c :: r, acc =>
    if c.isWhitespace then
      if acc.isEmpty then splitWsAux r [] else acc.reverse :: splitWsAux r []
    else splitWsAux r (c :: acc)

/-- Python `str.split()` with no argument: split on runs of whitespace,
discarding empty pieces. -/
def splitWs (l : List Char) : List Tok := splitWsAux l []

/-- Python `raw.rstrip('$ ')`: drop trailing characters of the set. -/
def rstripAuto (l : List Char) : List Char :=
  (l.reverse.dropWhile (fun c => c = '$' || c = ' ')).reverse

/-- Python `str.strip()`: drop whitespace from both ends. -/
def stripEnds (l : List Char) : List Char :=
  ((l.dropWhile Char.isWhitespace).reverse.dropWhile Char.isWhitespace).reverse

/-- Cleanup `raw_metar.rstrip('$ ').strip()` applied before parsing
(both sources). -/
def cleanRaw (l : List Char) : List Char := stripEnds (rstripAuto l)

/-- Token list the decoder iterates over. -/
def metarToks (raw : List Char) : List Tok := splitWs (cleanRaw raw)

/-- Exact-fraction model of the Python `float` values the decoder builds.
The pair is unnormalised; `toRat` gives its value.  Every value the decoder
constructs has a positive denominator. -/
structure PyQ where
  num : Int
  den : Nat
deriving DecidableEq

/-- Rational value of a `PyQ`. -/
def PyQ.toRat (q : PyQ) : ℚ := (q.num : ℚ) / (q.den : ℚ)

/-- Python float `+` on exact fractions. -/
def PyQ.add (x y : PyQ) : PyQ :=
  ⟨x.num * (y.den : Int) + y.num * (x.den : Int), x.den * y.den⟩

/-- Python float `/` on exact fractions (the decoder checks the divisor is
nonzero before dividing); keeps the denominator positive. -/
def PyQ.div (x y : PyQ) : PyQ :=
  ⟨if y.num < 0 then -(x.num * (y.den : Int)) else x.num * (y.den : Int),
   x.den * y.num.natAbs⟩

/-- Comparison `x < a / b` against a constant threshold (`b > 0`), by cross
multiplication; agrees with the rational order whenever `x.den > 0`. -/
def PyQ.ltQ (x : PyQ) (a : Int) (b : Nat) : Bool :=
  x.num * (b : Int) < a * (x.den : Int)

/-- Leading run of ASCII digits of a token, and the remainder. -/
def splitDigits : Tok → List Char × Tok
  | [] => ([], [])
  | c :: r =>
    if pyDigit c then
      let p := splitDigits r
      (c :: p.1, p.2)
    else ([], c :: r)

/-- Model of Python `float(s)` on unsigned decimal literals (`digits`,
`digits.digits`, `.digits`, `digits.`): the exact rational value.  The
exponent, `inf`/`nan` and underscore forms of the Python literal grammar
are not modelled; no report group and no claim exercises them. -/
def parseUFloat? (t : Tok) : Option PyQ :=
  let ip := splitDigits t
  match ip.2 with
  | [] => if ip.1.isEmpty then none else some ⟨(digitsToNat ip.1 : Int), 1⟩
  | c :: r =>
    if c = '.' then
      let fp := splitDigits r
      if fp.2.isEmpty && !(ip.1.isEmpty && fp.1.isEmpty) then
        some ⟨((digitsToNat ip.1 * 10 ^ fp.1.length + digitsToNat fp.1 : Nat) : Int),
              10 ^ fp.1.length⟩
      else none
    else none

/-- Model of Python `float(s)` with the optional sign. -/
def parseFloat? (t : Tok) : Option PyQ :=
  match t with
  | [] => none
  | c :: r =>
    if c = '-' then (parseUFloat? r).map (fun q => ⟨-q.num, q.den⟩)
    else if c = '+' then parseUFloat? r
    else parseUFloat? (c :: r)

/-- Content of the formatted ISO timestamp
`datetime(year, month, day, hour, minute).strftime('%Y-%m-%dT%H:%M:00Z')`
(the formatting is injective on these five fields). -/
structure ObsTime where
  year : Nat
  month : Nat
  day : Nat
  hour : Nat
  minute : Nat
deriving DecidableEq

/-- Regex `^\d{6}Z$`, the observation-time group `DDHHMMZ`. -/
def isTimeTok : Tok → Bool
  | [a, b, c, d, e, f, z] =>
    pyDigit a && pyDigit b && pyDigit c && pyDigit d && pyDigit e && pyDigit f && z = 'Z'
  | _ => false

/-- Day, hour and minute fields of a time token (`int(part[0:2])` etc.). -/
def timeFields (t : Tok) : Nat × Nat × Nat :=
  (digitsToNat (t.take 2), digitsToNat ((t.drop 2).take 2), digitsToNat ((t.drop 4).take 2))

/-- Month/year context the source reads from `datetime.now()` at decode
time; a claim fixes it, so it is an explicit parameter here. -/
structure Ctx where
  year : Nat
  month : Nat
deriving DecidableEq

/-- Gregorian leap-year rule used by Python `datetime`. -/
def isLeap (y : Nat) : Bool := (y % 4 = 0 && !(y % 100 = 0)) || y % 400 = 0

/-- Days of month `m` of year `y` for the ranges `datetime` accepts. -/
def daysInMonth (y m : Nat) : Nat :=
  if m = 2 then (if isLeap y then 29 else 28)
  else if m = 4 || m = 6 || m = 9 || m = 11 then 30 else 31

/-- Ranges accepted by the `datetime(year, month, day, hour, minute)`
constructor; outside them it raises `ValueError`. -/
def timeOk (ctx : Ctx) (d h mi : Nat) : Bool :=
  1 ≤ ctx.year && ctx.year ≤ 9999 && 1 ≤ ctx.month && ctx.month ≤ 12 &&
  1 ≤ d && d ≤ daysInMonth ctx.year ctx.month && h ≤ 23 && mi ≤ 59

/-- Tail `G\d{2,3}KT` of a gusting wind group, returning the gust speed. -/
def gustTail? : Tok → Option Nat
  | [] => none
  | g :: r =>
    if g = 'G' then
      let p := splitDigits r
      if (p.1.length = 2 || p.1.length = 3) && p.2 = ['K', 'T'] then some (digitsToNat p.1)
      else none
    else none

/-- Regex `^\d{3}\d{2,3}(G\d{2,3})?KT$`, the fixed-direction wind group. -/
def isWindTok (t : Tok) : Bool :=
  let p := splitDigits t
  (p.1.length = 5 || p.1.length = 6) && (p.2 = ['K', 'T'] || (gustTail? p.2).isSome)

/-- Regex `^VRB(\d{2,3})KT$`, the variable wind group, returning the speed. -/
def vrbSpeed? : Tok → Option Nat
  | v :: r :: b :: rest =>
    if v = 'V' && r = 'R' && b = 'B' then
      let p := splitDigits rest
      if (p.1.length = 2 || p.1.length = 3) && p.2 = ['K', 'T'] then some (digitsToNat p.1)
      else none
    else none
  | _ => none

/-- Python `part.endswith('SM')`. -/
def endsSM (t : Tok) : Bool :=
  match t.reverse with
  | m :: s :: _ => m = 'M' && s = 'S'
  | _ => false

/-- Regex `^M?\d{2}/M?\d{2}$`, the temperature/dewpoint group, returning
the signed Celsius pair (`M` encodes a negative value). -/
def tempParse? : Tok → Option (Int × Int)
  | [a, b, s, c, d] =>
    if s = '/' && pyDigit a && pyDigit b && pyDigit c && pyDigit d then
      some ((digitsToNat [a, b] : Int), (digitsToNat [c, d] : Int))
    else none
  | [x1, x2, x3, x4, x5, x6] =>
    if x1 = 'M' && x4 = '/' && pyDigit x2 && pyDigit x3 && pyDigit x5 && pyDigit x6 then
      some (-(digitsToNat [x2, x3] : Int), (digitsToNat [x5, x6] : Int))
    else if x3 = '/' && x4 = 'M' && pyDigit x1 && pyDigit x2 && pyDigit x5 && pyDigit x6 then
      some ((digitsToNat [x1, x2] : Int), -(digitsToNat [x5, x6] : Int))
    else none
  | [x1, x2, x3, x4, x5, x6, x7] =>
    if x1 = 'M' && x4 = '/' && x5 = 'M' && pyDigit x2 && pyDigit x3 && pyDigit x6 && pyDigit x7 then
      some (-(digitsToNat [x2, x3] : Int), -(digitsToNat [x6, x7] : Int))
    else none
  | _ => none

/-- Regex `^A\d{4}$`, the altimeter group: `int(part[1:]) / 100.0` inches
of mercury. -/
def altParse? : Tok → Option PyQ
  | [a, p, q, r, s] =>
    if a = 'A' && pyDigit p && pyDigit q && pyDigit r && pyDigit s then
      some ⟨(digitsToNat [p, q, r, s] : Int), 100⟩
    else none
  | _ => none

/-- Remainder of a token after a sky-coverage code
(`FEW|SCT|BKN|OVC|CLR|SKC|VV`); the seven codes are distinguished by their
first two letters, so the strip is deterministic. -/
def skyRest? : Tok → Option Tok
  | x :: y :: rest =>
    if x = 'V' && y = 'V' then some rest
    else
      match rest with
      | z :: r2 =>
        if (x = 'F' && y = 'E' && z = 'W') || (x = 'S' && y = 'C' && z = 'T') ||
           (x = 'B' && y = 'K' && z = 'N') || (x = 'O' && y = 'V' && z = 'C') ||
           (x = 'C' && y = 'L' && z = 'R') || (x = 'S' && y = 'K' && z = 'C') then some r2
        else none
      | [] => none
  | _ => none

/-- Regex `^(FEW|SCT|BKN|OVC|CLR|SKC|VV)\d{0,3}$`, the sky-condition group. -/
def isSkyTok (t : Tok) : Bool :=
  match skyRest? t with
  | some r => r.length ≤ 3 && r.all pyDigit
  | none => false

/-- Python `part.startswith(('BKN', 'OVC', 'VV'))`. -/
def startsBOV : Tok → Bool
  | x :: y :: z :: _ =>
    (x = 'B' && y = 'K' && z = 'N') || (x = 'O' && y = 'V' && z = 'C') || (x = 'V' && y = 'V')
  | [x, y] => x = 'V' && y = 'V'
  | _ => false

/-- Regex `^(BKN|OVC|VV)(\d{3})$`: the three-digit ceiling height in
hundreds of feet. -/
def ceilHeight? : Tok → Option Nat
  | [x, y, z, a, b, c] =>
    if ((x = 'B' && y = 'K' && z = 'N') || (x = 'O' && y = 'V' && z = 'C')) &&
       pyDigit a && pyDigit b && pyDigit c then some (digitsToNat [a, b, c])
    else none
  | [x, y, a, b, c] =>
    if x = 'V' && y = 'V' && pyDigit a && pyDigit b && pyDigit c then
      some (digitsToNat [a, b, c])
    else none
  | _ => none

/-- Two-letter precipitation/obscuration codes of the weather-phenomena
regex (`DZ|RA|SN|SG|IC|PL|GR|GS|UP|BR|FG|FU|VA|DU|SA|HZ|PY|PO|SQ|FC|SS|DS`). -/
def wxType (a b : Char) : Bool :=
  (a = 'D' && b = 'Z') || (a = 'R' && b = 'A') || (a = 'S' && b = 'N') ||
  (a = 'S' && b = 'G') || (a = 'I' && b = 'C') || (a = 'P' && b = 'L') ||
  (a = 'G' && b = 'R') || (a = 'G' && b = 'S') || (a = 'U' && b = 'P') ||
  (a = 'B' && b = 'R') || (a = 'F' && b = 'G') || (a = 'F' && b = 'U') ||
  (a = 'V' && b = 'A') || (a = 'D' && b = 'U') || (a = 'S' && b = 'A') ||
  (a = 'H' && b = 'Z') || (a = 'P' && b = 'Y') || (a = 'P' && b = 'O') ||
  (a = 'S' && b = 'Q') || (a = 'F' && b = 'C') || (a = 'S' && b = 'S') ||
  (a = 'D' && b = 'S')

/-- Descriptor codes `MI|PR|BC|DR|BL|SH|TS|FZ` of the phenomena regex. -/
def wxDesc (a b : Char) : Bool :=
  (a = 'M' && b = 'I') || (a = 'P' && b = 'R') || (a = 'B' && b = 'C') ||
  (a = 'D' && b = 'R') || (a = 'B' && b = 'L') || (a = 'S' && b = 'H') ||
  (a = 'T' && b = 'S') || (a = 'F' && b = 'Z')

/-- A sequence of type-code pairs (possibly empty). -/
def wxPairs : Tok → Bool
  | [] => true
  | a :: b :: r => wxType a b && wxPairs r
  | _ => false

/-- The `(...)+` tail of the phenomena regex: one or more type codes. -/
def wxBody (t : Tok) : Bool := !t.isEmpty && wxPairs t

/-- The `(desc)?(type)+` part of the phenomena regex; the optional
descriptor is tried both ways, matching the regex's backtracking. -/
def wxCore (t : Tok) : Bool :=
  (match t with
   | a :: b :: r => wxDesc a b && wxBody r
   | _ => false) || wxBody t

/-- Regex `^[-+]?(VC)?(MI|…|FZ)?(DZ|…|DS)+$` classifying a
weather-phenomena token (both sources, identical pattern text). -/
def isWxTok (t : Tok) : Bool :=
  let t1 := match t with
            | c :: r => if c = '-' || c = '+' then r else c :: r
            | [] => []
  (match t1 with
   | a :: b :: r => a = 'V' && b = 'C' && wxCore r
   | _ => false) || wxCore t1

/-- Flight categories stored in `flight_category`; absence (Python `None`)
is what the spec calls `Unknown`. -/
inductive FlightCat
  | LIFR
  | IFR
  | MVFR
  | VFR
deriving DecidableEq

/-- The decoder's result dictionary.  `observation_time` keeps the
`ObsTime` content of the formatted ISO string;
`weather_phenomena` and `sky_condition` keep the token lists the code joins
with `' '` and `', '` for display (the joins are injective on
whitespace-free tokens). -/
structure Obs where
  station_id : List Char
  raw_metar : List Char
  observation_time : Option ObsTime
  wind_direction_deg : Option Nat
  wind_speed_kt : Option Nat
  wind_gust_kt : Option Nat
  visibility_sm : Option PyQ
  weather_phenomena : Option (List Tok)
  ceiling_ft : Option Nat
  sky_condition : Option (List Tok)
  temperature_c : Option Int
  dewpoint_c : Option Int
  altimeter_inhg : Option PyQ
  flight_category : Option FlightCat
deriving DecidableEq

/-- Fresh result dictionary with every decoded field `None`. -/
def initObs (sid raw : List Char) : Obs :=
  ⟨sid, raw, none, none, none, none, none, none, none, none, none, none, none, none⟩

/-- Exceptions that can escape one iteration of the token loop:
`ValueError` from `datetime(...)` on an out-of-range time group, and
`ZeroDivisionError` from a zero denominator in a visibility fraction. -/
inductive LoopErr
  | timeValue
  | zeroDiv
deriving DecidableEq

/-- The visibility branch body on `part[:-2]` (both sources, lines 171-185
and 1240-1257): `try/except ValueError` around fraction or decimal
parsing.  `.ok (some q)` is an assignment, `.ok none` a swallowed
`ValueError`, `.error .zeroDiv` a zero denominator. -/
def visParse (visStr : Tok) : Except LoopErr (Option PyQ) :=
  if visStr.contains '/' then
    if visStr.contains ' ' then
      match visStr.splitOn ' ' with
      | [w, f] =>
        match f.splitOn '/' with
        | [n, d] =>
          match parseFloat? w, parseFloat? n, parseFloat? d with
          | some wq, some nq, some dq =>
            if dq.num = 0 then .error .zeroDiv else .ok (some (wq.add (nq.div dq)))
          | _, _, _ => .ok none
        | _ => .ok none
      | _ => .ok none
    else
      match visStr.splitOn '/' with
      | [n, d] =>
        match parseFloat? n, parseFloat? d with
        | some nq, some dq =>
          if dq.num = 0 then .error .zeroDiv else .ok (some (nq.div dq))
        | _, _ => .ok none
      | _ => .ok none
  else
    match parseFloat? visStr with
    | some q => .ok (some q)
    | none => .ok none

/-- One iteration of the token loop of `metar_logger.fetch_metar`
(lines 141-209): the `elif` chain over one token. -/
def metarStep (ctx : Ctx) (s : Obs) (t : Tok) : Except LoopErr Obs :=
  if isTimeTok t then
    let f := timeFields t
    if timeOk ctx f.1 f.2.1 f.2.2 then
      .ok { s with observation_time := some ⟨ctx.year, ctx.month, f.1, f.2.1, f.2.2⟩ }
    else .error .timeValue
  else if isWindTok t then
    let p := splitDigits t
    let s1 := { s with wind_direction_deg := some (digitsToNat (t.take 3)) }
    if t.contains 'G' then
      match gustTail? p.2 with
      | some g =>
        .ok { s1 with wind_speed_kt := some (digitsToNat (p.1.drop 3)),
                      wind_gust_kt := some g }
      | none => .ok s1
    else .ok { s1 with wind_speed_kt := some (digitsToNat (p.1.drop 3)) }
  else if (vrbSpeed? t).isSome then
    .ok { s with wind_direction_deg := some 0, wind_speed_kt := vrbSpeed? t }
  else if endsSM t then
    match visParse (t.take (t.length - 2)) with
    | .error e => .error e
    | .ok (some q) => .ok { s with visibility_sm := some q }
    | .ok none => .ok s
  else if (tempParse? t).isSome then
    .ok { s with temperature_c := (tempParse? t).map Prod.fst,
                 dewpoint_c := (tempParse? t).map Prod.snd }
  else if (altParse? t).isSome then
    .ok { s with altimeter_inhg := altParse? t }
  else if isSkyTok t then
    let s1 := { s with sky_condition := some ((s.sky_condition.getD []) ++ [t]) }
    if startsBOV t && s.ceiling_ft.isNone then
      match ceilHeight? t with
      | some h => .ok { s1 with ceiling_ft := some (h * 100) }
      | none => .ok s1
    else .ok s1
  else .ok s

/-- One iteration of the token loop of `weather_logger.fetch_metar`
(lines 1209-1301): identical to `metarStep` except for the extra look-back
branch for a lone `SM` token (lines 1260-1268), keyed on
`part == 'SM' and i > 0`; `prev` is `parts[i-1]`, present iff `i > 0`. -/
def weatherStep (ctx : Ctx) (prev : Option Tok) (s : Obs) (t : Tok) : Except LoopErr Obs :=
  if isTimeTok t then
    let f := timeFields t
    if timeOk ctx f.1 f.2.1 f.2.2 then
      .ok { s with observation_time := some ⟨ctx.year, ctx.month, f.1, f.2.1, f.2.2⟩ }
    else .error .timeValue
  else if isWindTok t then
    let p := splitDigits t
    let s1 := { s with wind_direction_deg := some (digitsToNat (t.take 3)) }
    if t.contains 'G' then
      match gustTail? p.2 with
      | some g =>
        .ok { s1 with wind_speed_kt := some (digitsToNat (p.1.drop 3)),
                      wind_gust_kt := some g }
      | none => .ok s1
    else .ok { s1 with wind_speed_kt := some (digitsToNat (p.1.drop 3)) }
  else if (vrbSpeed? t).isSome then
    .ok { s with wind_direction_deg := some 0, wind_speed_kt := vrbSpeed? t }
  else if endsSM t then
    match visParse (t.take (t.length - 2)) with
    | .error e => .error e
    | .ok (some q) => .ok { s with visibility_sm := some q }
    | .ok none => .ok s
  else if t = ['S', 'M'] && prev.isSome then
    match prev with
    | some pv =>
      if pv.contains '/' then
        match pv.splitOn '/' with
        | [n, d] =>
          match parseFloat? n, parseFloat? d with
          | some nq, some dq =>
            if dq.num = 0 then .error .zeroDiv
            else .ok { s with visibility_sm := some (nq.div dq) }
          | _, _ => .ok s
        | _ => .ok s
      else .ok s
    | none => .ok s
  else if (tempParse? t).isSome then
    .ok { s with temperature_c := (tempParse? t).map Prod.fst,
                 dewpoint_c := (tempParse? t).map Prod.snd }
  else if (altParse? t).isSome then
    .ok { s with altimeter_inhg := altParse? t }
  else if isSkyTok t then
    let s1 := { s with sky_condition := some ((s.sky_condition.getD []) ++ [t]) }
    if startsBOV t && s.ceiling_ft.isNone then
      match ceilHeight? t with
      | some h => .ok { s1 with ceiling_ft := some (h * 100) }
      | none => .ok s1
    else .ok s1
  else .ok s

/-- The token loop of `metar_logger.fetch_metar`. -/
def metarLoop (ctx : Ctx) : Obs → List Tok → Except LoopErr Obs
  | s, [] => .ok s
  | s, t :: r =>
    match metarStep ctx s t with
    | .ok s1 => metarLoop ctx s1 r
    | .error e => .error e

/-- The token loop of `weather_logger.fetch_metar`, threading the previous
token for the look-back branch (`prev = none` at index `0`). -/
def weatherLoop (ctx : Ctx) : Obs → Option Tok → List Tok → Except LoopErr Obs
  | s, _, [] => .ok s
  | s, prev, t :: r =>
    match weatherStep ctx prev s t with
    | .ok s1 => weatherLoop ctx s1 (some t) r
    | .error e => .error e

/-- The weather-phenomena pass over all tokens (lines 212-217 and
1303-1309, identical): matches collected in report order, `None` when
nothing matched. -/
def phenomena (parts : List Tok) : Option (List Tok) :=
  match parts.filter isWxTok with
  | [] => none
  | l => some l

/-- Flight-category ladder of `metar_logger.fetch_metar` (lines 219-249). -/
def metarCategory (ceiling : Option Nat) (vis : Option PyQ) : Option FlightCat :=
  match ceiling, vis with
  | some c, some v =>
    some (if c < 200 || v.ltQ 1 2 then .LIFR
          else if c < 500 || v.ltQ 1 1 then .IFR
          else if c < 1000 || v.ltQ 3 1 then .MVFR
          else .VFR)
  | some c, none =>
    some (if c < 200 then .LIFR else if c < 500 then .IFR
          else if c < 1000 then .MVFR else .VFR)
  | none, some v =>
    some (if v.ltQ 1 2 then .LIFR else if v.ltQ 1 1 then .IFR
          else if v.ltQ 3 1 then .MVFR else .VFR)
  | none, none => none

/-- Flight-category ladder of `weather_logger.fetch_metar`
(lines 1311-1332): the visibility-only case is absent there, leaving the
field unset. -/
def weatherCategory (ceiling : Option Nat) (vis : Option PyQ) : Option FlightCat :=
  match ceiling, vis with
  | some c, some v =>
    some (if c < 200 || v.ltQ 1 2 then .LIFR
          else if c < 500 || v.ltQ 1 1 then .IFR
          else if c < 1000 || v.ltQ 3 1 then .MVFR
          else .VFR)
  | some c, none =>
    some (if c < 200 then .LIFR else if c < 500 then .IFR
          else if c < 1000 then .MVFR else .VFR)
  | none, _ => none

/-- The decoding portion of `metar_logger.fetch_metar`: cleanup, token
loop, phenomena pass, flight category. -/
def metarParse (ctx : Ctx) (sid raw : List Char) : Except LoopErr Obs :=
  let parts := metarToks raw
  match metarLoop ctx (initObs sid (cleanRaw raw)) parts with
  | .error e => .error e
  | .ok s =>
    .ok { s with weather_phenomena := phenomena parts,
                 flight_category := metarCategory s.ceiling_ft s.visibility_sm }

/-- The decoding portion of `weather_logger.fetch_metar`. -/
def weatherParse (ctx : Ctx) (sid raw : List Char) : Except LoopErr Obs :=
  let parts := metarToks raw
  match weatherLoop ctx (initObs sid (cleanRaw raw)) none parts with
  | .error e => .error e
  | .ok s =>
    .ok { s with weather_phenomena := phenomena parts,
                 flight_category := weatherCategory s.ceiling_ft s.visibility_sm }

/-- Exception handling of `metar_logger.fetch_metar` (lines 253-258): the
`ValueError` of a bad time group is caught and the function returns `None`;
`ZeroDivisionError` is in neither `except` clause and escapes (`.error ()`). -/
def metarFetch (ctx : Ctx) (sid raw : List Char) : Except Unit (Option Obs) :=
  match metarParse ctx sid raw with
  | .ok o => .ok (some o)
  | .error .timeValue => .ok none
  | .error .zeroDiv => .error ()

/-- Exception handling of `weather_logger.fetch_metar` (lines 1337-1344):
`except Exception` catches everything and returns `None`. -/
def weatherFetch (ctx : Ctx) (sid raw : List Char) : Option Obs :=
  match weatherParse ctx sid raw with
  | .ok o => some o
  | .error _ => none

/-- Acceptance test of the caller `metar_logger.main` (line 326):
`if metar and metar['observation_time']:`. -/
def callerAccepts (r : Option Obs) : Bool :=
  match r with
  | some o => o.observation_time.isSome
  | none => false

/-- Decidable equality of `Except` outcomes, for concrete evaluation. -/
instance {ε α : Type} [DecidableEq ε] [DecidableEq α] : DecidableEq (Except ε α) := fun a b =>
  match a, b with
  | .ok x, .ok y =>
    if h : x = y then .isTrue (by rw [h])
    else .isFalse (fun hh => h (Except.ok.inj hh))
  | .ok _, .error _ => .isFalse (fun hh => Except.noConfusion hh)
  | .error _, .ok _ => .isFalse (fun hh => Except.noConfusion hh)
  | .error x, .error y =>
    if h : x = y then .isTrue (by rw [h])
    else .isFalse (fun hh => h (Except.error.inj hh))

/-- Left-biased choice on options (first value wins). -/
def optOr {α : Type} (a b : Option α) : Option α :=
  match a with
  | some x => some x
  | none => b

/-- First token with a `(BKN|OVC|VV)\d{3}` shape, its height times 100: the
value the token loop leaves in `ceiling_ft` (first match, not minimum). -/
def firstCeiling : List Tok → Option Nat
  | [] => none
  | t :: rest =>
    match ceilHeight? t with
    | some h => some (h * 100)
    | none => firstCeiling rest

/-- Validity of the `datetime` call made for a time token. -/
def timeTokOk (ctx : Ctx) (t : Tok) : Bool :=
  timeOk ctx (timeFields t).1 (timeFields t).2.1 (timeFields t).2.2

/-- A token that makes the decoder's visibility branch divide by zero
(`ZeroDivisionError`): it reaches that branch and its fraction parses with
a zero denominator. -/
def divZeroTok (t : Tok) : Bool :=
  !isTimeTok t && !isWindTok t && !(vrbSpeed? t).isSome && endsSM t &&
  (match visParse (t.take (t.length - 2)) with
   | .error _ => true
   | .ok _ => false)

/-- Guard of the sky-condition branch in the `elif` chain: the token fell
through every earlier pattern and matches the sky regex. -/
def skyBranch (t : Tok) : Bool :=
  !isTimeTok t && !isWindTok t && !(vrbSpeed? t).isSome && !endsSM t &&
  !(tempParse? t).isSome && !(altParse? t).isSome && isSkyTok t

/-- Flight-category ladder written from the spec's own words (section 4.4):
both present, ceiling only, visibility only, neither (`Unknown`, the absent
value); thresholds 200/500/1000 ft and 0.5/1/3 sm, all strict. -/
def specClassify (ceiling : Option Nat) (vis : Option ℚ) : Option FlightCat :=
  match ceiling, vis with
  | some c, some v =>
    some (if c < 200 ∨ v < 1 / 2 then .LIFR
          else if c < 500 ∨ v < 1 then .IFR
          else if c < 1000 ∨ v < 3 then .MVFR
          else .VFR)
  | some c, none =>
    some (if c < 200 then .LIFR else if c < 500 then .IFR
          else if c < 1000 then .MVFR else .VFR)
  | none, some v =>
    some (if v < 1 / 2 then .LIFR else if v < 1 then .IFR
          else if v < 3 then .MVFR else .VFR)
  | none, none => none

/-- Result of an `ok` outcome (dummy empty record otherwise), for stating
concrete evaluations. -/
def obsOf (r : Except LoopErr Obs) : Obs :=
  match r with
  | .ok o => o
  | .error _ => initObs [] []

/-- Flight category of an `ok` outcome. -/
def catOf (r : Except LoopErr Obs) : Option FlightCat :=
  match r with
  | .ok o => o.flight_category
  | .error _ => none

/-- Fixed context used by concrete witnesses and counterexamples. -/
def ctx0 : Ctx := ⟨2025, 10⟩

/-- Station id used by concrete witnesses and counterexamples. -/
def sid0 : List Char := ("KCOS").toList

/-- The worked example report of the spec. -/
def rawExample : List Char :=
  ("KCOS 082354Z 04006KT 4SM -SN BR FEW004 OVC009 M01/M02 A2973").toList

/-- The example report with a gusting wind group. -/
def rawGust : List Char := ("KCOS 082354Z 04006G15KT").toList

/-- Report with a variable wind group. -/
def rawVrb : List Char := ("KCOS 082354Z VRB05KT").toList

/-- Report with a calm-direction (`000`) wind group of the same speed. -/
def rawCalmDir : List Char := ("KCOS 082354Z 00005KT").toList

/-- Report with a two-token fractional visibility. -/
def rawTwoTokVis : List Char := ("KCOS 082354Z 1 1/2SM").toList

/-- Report with a single-token fractional visibility. -/
def rawFracVis : List Char := ("KCOS 082354Z 1/2SM").toList

/-- Report with visibility but no ceiling. -/
def rawVisOnly : List Char := ("KCOS 082354Z 10SM").toList

/-- Report whose second time group has an out-of-range day. -/
def rawBadDay : List Char := ("KCOS 082354Z 320000Z").toList

/-- Report with a zero-denominator visibility fraction. -/
def rawDivZero : List Char := ("KCOS 082354Z 1/0SM").toList

/-- Report whose first `BKN` layer has a two-digit height. -/
def rawShortSky : List Char := ("KCOS 082354Z BKN09 BKN030").toList

@[simp]
lemma optOr_some {α : Type} (x : α) (b : Option α) : optOr (some x) b = some x := rfl

@[simp]
lemma optOr_none {α : Type} (b : Option α) : optOr none b = b := rfl

@[simp]
lemma optOr_none_right {α : Type} (a : Option α) : optOr a none = a := by
  cases a <;> rfl

lemma bfalse {b : Bool} (h : ¬b = true) : b = false := by
  cases b
  · rfl
  · exact absurd rfl h

lemma pyDigit_ne {c x : Char} (hc : pyDigit c = true) (hx : pyDigit x = false) : c ≠ x := by
  intro h
  subst h
  rw [hc] at hx
  cases hx

/-- A token with a `(BKN|OVC|VV)\d{3}` shape is claimed by no earlier
branch of the `elif` chain and matches the sky regex and the
`startswith(('BKN','OVC','VV'))` test. -/
lemma ceil_excl {t : Tok} {n : Nat} (h : ceilHeight? t = some n) :
    isTimeTok t = false ∧ isWindTok t = false ∧ vrbSpeed? t = none ∧ endsSM t = false ∧
    tempParse? t = none ∧ altParse? t = none ∧ isSkyTok t = true ∧ startsBOV t = true := by
  unfold ceilHeight? at h
  split at h
  · rename_i x y z a b c
    split at h
    · rename_i hcond
      simp only [Bool.and_eq_true, Bool.or_eq_true, decide_eq_true_eq] at hcond
      obtain ⟨⟨⟨hxyz, hda⟩, hdb⟩, hdc⟩ := hcond
      have hcm : c ≠ 'M' := pyDigit_ne hdc (by decide)
      rcases hxyz with ⟨⟨rfl, rfl⟩, rfl⟩ | ⟨⟨rfl, rfl⟩, rfl⟩ <;>
        refine ⟨rfl, by simp [isWindTok, splitDigits, pyDigit], rfl,
                by simp [endsSM, hcm], by simp [tempParse?], by simp [altParse?],
                by simp [isSkyTok, skyRest?, hda, hdb, hdc], rfl⟩
    · exact absurd h (by simp)
  · rename_i x y a b c
    split at h
    · rename_i hcond
      simp only [Bool.and_eq_true, decide_eq_true_eq] at hcond
      obtain ⟨⟨⟨⟨rfl, rfl⟩, hda⟩, hdb⟩, hdc⟩ := hcond
      have has : a ≠ '/' := pyDigit_ne hda (by decide)
      have hcm : c ≠ 'M' := pyDigit_ne hdc (by decide)
      refine ⟨rfl, by simp [isWindTok, splitDigits, pyDigit], rfl,
              by simp [endsSM, hcm], by simp [tempParse?, has], by simp [altParse?],
              by simp [isSkyTok, skyRest?, hda, hdb, hdc], rfl⟩
    · exact absurd h (by simp)
  · exact absurd h (by simp)

lemma ceil_none_time {t : Tok} (h : isTimeTok t = true) : ceilHeight? t = none := by
  cases hc : ceilHeight? t with
  | none => rfl
  | some n => rw [(ceil_excl hc).1] at h; cases h

lemma ceil_none_wind {t : Tok} (h : isWindTok t = true) : ceilHeight? t = none := by
  cases hc : ceilHeight? t with
  | none => rfl
  | some n => rw [(ceil_excl hc).2.1] at h; cases h

lemma ceil_none_vrb {t : Tok} (h : (vrbSpeed? t).isSome = true) : ceilHeight? t = none := by
  cases hc : ceilHeight? t with
  | none => rfl
  | some n => rw [(ceil_excl hc).2.2.1] at h; cases h

lemma ceil_none_sm {t : Tok} (h : endsSM t = true) : ceilHeight? t = none := by
  cases hc : ceilHeight? t with
  | none => rfl
  | some n => rw [(ceil_excl hc).2.2.2.1] at h; cases h

lemma ceil_none_temp {t : Tok} (h : (tempParse? t).isSome = true) : ceilHeight? t = none := by
  cases hc : ceilHeight? t with
  | none => rfl
  | some n => rw [(ceil_excl hc).2.2.2.2.1] at h; cases h

lemma ceil_none_alt {t : Tok} (h : (altParse? t).isSome = true) : ceilHeight? t = none := by
  cases hc : ceilHeight? t with
  | none => rfl
  | some n => rw [(ceil_excl hc).2.2.2.2.2.1] at h; cases h

lemma ceil_none_nosky {t : Tok} (h : isSkyTok t = false) : ceilHeight? t = none := by
  cases hc : ceilHeight? t with
  | none => rfl
  | some n => rw [(ceil_excl hc).2.2.2.2.2.2.1] at h; cases h

lemma ceil_none_nobov {t : Tok} (h : startsBOV t = false) : ceilHeight? t = none := by
  cases hc : ceilHeight? t with
  | none => rfl
  | some n => rw [(ceil_excl hc).2.2.2.2.2.2.2] at h; cases h

/-- Effect of one `metar_logger` loop iteration on the fields the claims
track: identity on station, raw text, phenomena and category; first-match
update of the ceiling; guarded append of the sky display; time field
untouched by non-time tokens. -/
lemma metarStep_ok {ctx : Ctx} {s s' : Obs} {t : Tok} (h : metarStep ctx s t = .ok s') :
    s'.station_id = s.station_id ∧ s'.raw_metar = s.raw_metar ∧
    s'.weather_phenomena = s.weather_phenomena ∧ s'.flight_category = s.flight_category ∧
    s'.ceiling_ft = optOr s.ceiling_ft ((ceilHeight? t).map (fun ht => ht * 100)) ∧
    s'.sky_condition =
      (if skyBranch t then some ((s.sky_condition.getD []) ++ [t]) else s.sky_condition) ∧
    (isTimeTok t = false → s'.observation_time = s.observation_time) := by
  unfold metarStep at h
  dsimp only at h
  split at h
  · rename_i h1
    split at h
    · cases h
      refine ⟨rfl, rfl, rfl, rfl, ?_, ?_, ?_⟩
      · simp [ceil_none_time h1]
      · simp [skyBranch, h1]
      · intro hf; rw [h1] at hf; cases hf
    · exact Except.noConfusion h
  · rename_i h1
    split at h
    · rename_i h2
      split at h
      · split at h
        · cases h
          exact ⟨rfl, rfl, rfl, rfl, by simp [ceil_none_wind h2], by simp [skyBranch, h2],
                 fun _ => rfl⟩
        · cases h
          exact ⟨rfl, rfl, rfl, rfl, by simp [ceil_none_wind h2], by simp [skyBranch, h2],
                 fun _ => rfl⟩
      · cases h
        exact ⟨rfl, rfl, rfl, rfl, by simp [ceil_none_wind h2], by simp [skyBranch, h2],
               fun _ => rfl⟩
    · rename_i h2
      split at h
      · rename_i h3
        cases h
        exact ⟨rfl, rfl, rfl, rfl, by simp [ceil_none_vrb h3], by simp [skyBranch, h3],
               fun _ => rfl⟩
      · rename_i h3
        split at h
        · rename_i h4
          split at h
          · exact Except.noConfusion h
          · rename_i hv
            cases h
            exact ⟨rfl, rfl, rfl, rfl, by simp [ceil_none_sm h4], by simp [skyBranch, h4],
                   fun _ => rfl⟩
          · rename_i hv
            cases h
            exact ⟨rfl, rfl, rfl, rfl, by simp [ceil_none_sm h4], by simp [skyBranch, h4],
                   fun _ => rfl⟩
        · rename_i h4
          split at h
          · rename_i h5
            cases h
            exact ⟨rfl, rfl, rfl, rfl, by simp [ceil_none_temp h5], by simp [skyBranch, h5],
                   fun _ => rfl⟩
          · rename_i h5
            split at h
            · rename_i h6
              cases h
              exact ⟨rfl, rfl, rfl, rfl, by simp [ceil_none_alt h6], by simp [skyBranch, h6],
                     fun _ => rfl⟩
            · rename_i h6
              split at h
              · rename_i h7
                split at h
                · rename_i h8
                  split at h
                  · rename_i ht hc
                    cases h
                    simp only [Bool.and_eq_true] at h8
                    refine ⟨rfl, rfl, rfl, rfl, ?_, ?_, fun _ => rfl⟩
                    · rw [Option.isNone_iff_eq_none.mp h8.2, hc]
                      rfl
                    · simp [skyBranch, h1, h2, h3, h4, h5, h6, h7]
                  · rename_i ht hc
                    cases h
                    simp only [Bool.and_eq_true] at h8
                    refine ⟨rfl, rfl, rfl, rfl, ?_, ?_, fun _ => rfl⟩
                    · rw [Option.isNone_iff_eq_none.mp h8.2, hc]
                      rfl
                    · simp [skyBranch, h1, h2, h3, h4, h5, h6, h7]
                · rename_i h8
                  cases h
                  refine ⟨rfl, rfl, rfl, rfl, ?_, ?_, fun _ => rfl⟩
                  · rcases Bool.and_eq_false_iff.mp (Bool.not_eq_true _ ▸ h8) with hb | hn
                    · simp [ceil_none_nobov hb]
                    · cases hcf : s.ceiling_ft with
                      | none => rw [hcf] at hn; cases hn
                      | some c => simp
                  · simp [skyBranch, h1, h2, h3, h4, h5, h6, h7]
              · rename_i h7
                cases h
                exact ⟨rfl, rfl, rfl, rfl, by simp [ceil_none_nosky (bfalse h7)],
                       by simp [skyBranch, bfalse h7], fun _ => rfl⟩

/-- The visibility branch only ever raises `ZeroDivisionError`. -/
lemma visParse_err {v : Tok} {e : LoopErr} (h : visParse v = .error e) : e = .zeroDiv := by
  unfold visParse at h
  split at h
  · split at h
    · split at h
      · split at h
        · split at h
          · split at h
            · exact (Except.error.inj h).symm
            · exact Except.noConfusion h
          · exact Except.noConfusion h
        · exact Except.noConfusion h
      · exact Except.noConfusion h
    · split at h
      · split at h
        · split at h
          · exact (Except.error.inj h).symm
          · exact Except.noConfusion h
        · exact Except.noConfusion h
      · exact Except.noConfusion h
  · split at h
    · exact Except.noConfusion h
    · exact Except.noConfusion h

/-- A loop iteration fails only for an out-of-range time group
(`ValueError`) or a zero-denominator visibility fraction
(`ZeroDivisionError`). -/
lemma metarStep_err {ctx : Ctx} {s : Obs} {t : Tok} {e : LoopErr}
    (h : metarStep ctx s t = .error e) :
    (e = .timeValue ∧ isTimeTok t = true ∧ timeTokOk ctx t = false) ∨
    (e = .zeroDiv ∧ divZeroTok t = true) := by
  unfold metarStep at h
  dsimp only at h
  split at h
  · rename_i h1
    split at h
    · exact Except.noConfusion h
    · rename_i h2
      exact Or.inl ⟨(Except.error.inj h).symm, h1, bfalse h2⟩
  · rename_i h1
    split at h
    · split at h
      · split at h
        · exact Except.noConfusion h
        · exact Except.noConfusion h
      · exact Except.noConfusion h
    · rename_i h2
      split at h
      · exact Except.noConfusion h
      · rename_i h3
        split at h
        · rename_i h4
          split at h
          · rename_i e' hv
            refine Or.inr ⟨?_, ?_⟩
            · rw [← visParse_err hv, (Except.error.inj h)]
            · simp [divZeroTok, bfalse h1, bfalse h2, bfalse h3, h4, hv]
          · exact Except.noConfusion h
          · exact Except.noConfusion h
        · split at h
          · exact Except.noConfusion h
          · split at h
            · exact Except.noConfusion h
            · split at h
              · split at h
                · split at h
                  · exact Except.noConfusion h
                  · exact Except.noConfusion h
                · exact Except.noConfusion h
              · exact Except.noConfusion h

/-- A token that can fail neither way steps successfully. -/
lemma metarStep_ok_of {ctx : Ctx} {s : Obs} {t : Tok}
    (h1 : isTimeTok t = true → timeTokOk ctx t = true) (h2 : divZeroTok t = false) :
    ∃ s', metarStep ctx s t = .ok s' := by
  cases hs : metarStep ctx s t with
  | ok s' => exact ⟨s', rfl⟩
  | error e =>
    rcases metarStep_err hs with ⟨_, ht, hbad⟩ | ⟨_, hdz⟩
    · rw [h1 ht] at hbad; cases hbad
    · rw [h2] at hdz; cases hdz

/-- The extra look-back branch of `weather_logger` is dead code (a lone
`SM` token is already claimed by the `endswith('SM')` branch), so the two
loop bodies are extensionally equal. -/
lemma weatherStep_eq (ctx : Ctx) (prev : Option Tok) (s : Obs) (t : Tok) :
    weatherStep ctx prev s t = metarStep ctx s t := by
  unfold weatherStep metarStep
  by_cases h4 : endsSM t = true
  · refine if_congr Iff.rfl rfl (if_congr Iff.rfl rfl (if_congr Iff.rfl rfl ?_))
    simp only [h4, if_true]
  · refine if_congr Iff.rfl rfl (if_congr Iff.rfl rfl (if_congr Iff.rfl rfl ?_))
    have hne : ¬(t = ['S', 'M']) := fun he => h4 (by rw [he]; rfl)
    simp [h4, hne]

/-- The two token loops agree. -/
lemma weatherLoop_eq (ctx : Ctx) :
    ∀ (toks : List Tok) (s : Obs) (prev : Option Tok),
      weatherLoop ctx s prev toks = metarLoop ctx s toks := by
  intro toks
  induction toks with
  | nil => intro s prev; rfl
  | cons t rest ih =>
    intro s prev
    unfold weatherLoop metarLoop
    rw [weatherStep_eq]
    cases metarStep ctx s t with
    | ok s1 => exact ih s1 (some t)
    | error e => rfl

lemma firstCeiling_cons (t : Tok) (rest : List Tok) :
    firstCeiling (t :: rest) =
      optOr ((ceilHeight? t).map (fun ht => ht * 100)) (firstCeiling rest) := by
  cases hc : ceilHeight? t <;> simp [firstCeiling, hc]

lemma firstCeiling_none {toks : List Tok} (h : ∀ t ∈ toks, ceilHeight? t = none) :
    firstCeiling toks = none := by
  induction toks with
  | nil => rfl
  | cons t rest ih =>
    rw [firstCeiling_cons, h t (by simp)]
    exact ih (fun u hu => h u (by simp [hu]))

lemma firstCeiling_some {toks : List Tok} {n : Nat} (h : firstCeiling toks = some n) :
    ∃ t ∈ toks, ∃ ht, ceilHeight? t = some ht ∧ n = ht * 100 := by
  induction toks with
  | nil => exact Option.noConfusion h
  | cons t rest ih =>
    rw [firstCeiling_cons] at h
    cases hc : ceilHeight? t with
    | some ht =>
      rw [hc] at h
      exact ⟨t, by simp, ht, hc, (Option.some.inj h).symm⟩
    | none =>
      rw [hc] at h
      obtain ⟨u, hu, hh⟩ := ih h
      exact ⟨u, by simp [hu], hh⟩

lemma optOr_assoc {α : Type} (a b c : Option α) :
    optOr (optOr a b) c = optOr a (optOr b c) := by
  cases a <;> rfl

/-- Accumulated effect of the whole token loop on the claim-relevant
fields, by induction on the token list. -/
lemma metarLoop_fields {ctx : Ctx} :
    ∀ (toks : List Tok) (s r : Obs), metarLoop ctx s toks = .ok r →
      r.station_id = s.station_id ∧ r.raw_metar = s.raw_metar ∧
      r.weather_phenomena = s.weather_phenomena ∧ r.flight_category = s.flight_category ∧
      r.ceiling_ft = optOr s.ceiling_ft (firstCeiling toks) ∧
      r.sky_condition =
        (match s.sky_condition with
         | some l => some (l ++ toks.filter skyBranch)
         | none =>
           if toks.filter skyBranch = [] then none else some (toks.filter skyBranch)) ∧
      ((∀ t ∈ toks, isTimeTok t = false) → r.observation_time = s.observation_time) := by
  intro toks
  induction toks with
  | nil =>
    intro s r h
    cases h
    refine ⟨rfl, rfl, rfl, rfl, by simp [firstCeiling], ?_, fun _ => rfl⟩
    cases s.sky_condition with
    | none => rfl
    | some l => simp
  | cons t rest ih =>
    intro s r h
    unfold metarLoop at h
    cases hs : metarStep ctx s t with
    | error e => rw [hs] at h; exact Except.noConfusion h
    | ok s1 =>
      rw [hs] at h
      obtain ⟨k1, k2, k3, k4, k5, k6, k7⟩ := metarStep_ok hs
      obtain ⟨m1, m2, m3, m4, m5, m6, m7⟩ := ih s1 r h
      refine ⟨m1.trans k1, m2.trans k2, m3.trans k3, m4.trans k4, ?_, ?_, ?_⟩
      · rw [m5, k5, firstCeiling_cons, optOr_assoc]
      · rw [m6, k6]
        by_cases hb : skyBranch t = true
        · rw [if_pos hb, List.filter_cons_of_pos (by simpa using hb)]
          cases hsky : s.sky_condition with
          | some l => simp
          | none => simp
        · rw [if_neg hb, List.filter_cons_of_neg (by simpa using hb)]
      · intro hall
        rw [m7 (fun u hu => hall u (by simp [hu])), k7 (hall t (by simp))]

/-- A failing loop names an offending token. -/
lemma metarLoop_err {ctx : Ctx} :
    ∀ (toks : List Tok) (s : Obs) (e : LoopErr), metarLoop ctx s toks = .error e →
      ∃ t ∈ toks, (e = .timeValue ∧ isTimeTok t = true ∧ timeTokOk ctx t = false) ∨
                  (e = .zeroDiv ∧ divZeroTok t = true) := by
  intro toks
  induction toks with
  | nil => intro s e h; exact Except.noConfusion h
  | cons t rest ih =>
    intro s e h
    unfold metarLoop at h
    cases hs : metarStep ctx s t with
    | ok s1 =>
      rw [hs] at h
      obtain ⟨u, hu, hp⟩ := ih s1 e h
      exact ⟨u, by simp [hu], hp⟩
    | error e' =>
      rw [hs] at h
      cases h
      exact ⟨t, by simp, metarStep_err hs⟩

/-- With no failing token the loop succeeds. -/
lemma metarLoop_ok_of {ctx : Ctx} {toks : List Tok} {s : Obs}
    (hall : ∀ t ∈ toks, (isTimeTok t = true → timeTokOk ctx t = true) ∧ divZeroTok t = false) :
    ∃ r, metarLoop ctx s toks = .ok r := by
  cases h : metarLoop ctx s toks with
  | ok r => exact ⟨r, rfl⟩
  | error e =>
    obtain ⟨t, ht, hp⟩ := metarLoop_err toks s e h
    rcases hp with ⟨_, h1, h2⟩ | ⟨_, h2⟩
    · rw [(hall t ht).1 h1] at h2; cases h2
    · rw [(hall t ht).2] at h2; cases h2

/-- Inversion of a successful decode into its loop result. -/
lemma metarParse_ok {ctx : Ctx} {sid raw : List Char} {o : Obs}
    (h : metarParse ctx sid raw = .ok o) :
    ∃ s, metarLoop ctx (initObs sid (cleanRaw raw)) (metarToks raw) = .ok s ∧
         o = { s with weather_phenomena := phenomena (metarToks raw),
                      flight_category := metarCategory s.ceiling_ft s.visibility_sm } := by
  unfold metarParse at h
  dsimp only at h
  split at h
  · exact Except.noConfusion h
  · rename_i s hs
    exact ⟨s, hs, (Except.ok.inj h).symm⟩

/-- A successful loop yields a successful decode. -/
lemma metarParse_ok_of {ctx : Ctx} {sid raw : List Char} {s : Obs}
    (hs : metarLoop ctx (initObs sid (cleanRaw raw)) (metarToks raw) = .ok s) :
    metarParse ctx sid raw =
      .ok { s with weather_phenomena := phenomena (metarToks raw),
                   flight_category := metarCategory s.ceiling_ft s.visibility_sm } := by
  unfold metarParse
  dsimp only
  rw [hs]

/-- Unpacking of the sky-condition regex. -/
lemma isSkyTok_elim {t : Tok} (h : isSkyTok t = true) :
    ∃ r, skyRest? t = some r ∧ r.length ≤ 3 ∧ r.all pyDigit = true := by
  unfold isSkyTok at h
  split at h
  · rename_i r heq
    simp only [Bool.and_eq_true, decide_eq_true_eq] at h
    exact ⟨r, heq, h.1, h.2⟩
  · exact Bool.noConfusion h

/-- A sky-condition token with a `BKN`/`OVC`/`VV` coverage code falls
through every earlier branch, so it reaches the sky branch. -/
lemma skyBranch_of_BOV {t : Tok} (hs : isSkyTok t = true) (hb : startsBOV t = true) :
    skyBranch t = true := by
  obtain ⟨r, hr, hlen, hall⟩ := isSkyTok_elim hs
  unfold startsBOV at hb
  split at hb
  · rename_i x y z rest
    simp only [Bool.or_eq_true, Bool.and_eq_true, decide_eq_true_eq] at hb
    rcases hb with (⟨⟨rfl, rfl⟩, rfl⟩ | ⟨⟨rfl, rfl⟩, rfl⟩) | ⟨rfl, rfl⟩
    · simp +decide [skyRest?] at hr
      subst hr
      rcases rest with _ | ⟨a, _ | ⟨b, _ | ⟨c, _ | ⟨d, rr⟩⟩⟩⟩
      · decide
      · simp only [List.all_cons, List.all_nil, Bool.and_true] at hall
        have haM : a ≠ 'M' := pyDigit_ne hall (by decide)
        simp +decide [skyBranch, isTimeTok, isWindTok, splitDigits, vrbSpeed?, endsSM,
          tempParse?, altParse?, isSkyTok, skyRest?, hall, haM]
      · simp only [List.all_cons, List.all_nil, Bool.and_true, Bool.and_eq_true] at hall
        have hbM : b ≠ 'M' := pyDigit_ne hall.2 (by decide)
        simp +decide [skyBranch, isTimeTok, isWindTok, splitDigits, vrbSpeed?, endsSM,
          tempParse?, altParse?, isSkyTok, skyRest?, hall.1, hall.2, hbM]
      · simp only [List.all_cons, List.all_nil, Bool.and_true, Bool.and_eq_true] at hall
        have hcM : c ≠ 'M' := pyDigit_ne hall.2.2 (by decide)
        simp +decide [skyBranch, isTimeTok, isWindTok, splitDigits, vrbSpeed?, endsSM,
          tempParse?, altParse?, isSkyTok, skyRest?, hall.1, hall.2.1, hall.2.2, hcM]
      · simp at hlen
    · simp +decide [skyRest?] at hr
      subst hr
      rcases rest with _ | ⟨a, _ | ⟨b, _ | ⟨c, _ | ⟨d, rr⟩⟩⟩⟩
      · decide
      · simp only [List.all_cons, List.all_nil, Bool.and_true] at hall
        have haM : a ≠ 'M' := pyDigit_ne hall (by decide)
        simp +decide [skyBranch, isTimeTok, isWindTok, splitDigits, vrbSpeed?, endsSM,
          tempParse?, altParse?, isSkyTok, skyRest?, hall, haM]
      · simp only [List.all_cons, List.all_nil, Bool.and_true, Bool.and_eq_true] at hall
        have hbM : b ≠ 'M' := pyDigit_ne hall.2 (by decide)
        simp +decide [skyBranch, isTimeTok, isWindTok, splitDigits, vrbSpeed?, endsSM,
          tempParse?, altParse?, isSkyTok, skyRest?, hall.1, hall.2, hbM]
      · simp only [List.all_cons, List.all_nil, Bool.and_true, Bool.and_eq_true] at hall
        have hcM : c ≠ 'M' := pyDigit_ne hall.2.2 (by decide)
        simp +decide [skyBranch, isTimeTok, isWindTok, splitDigits, vrbSpeed?, endsSM,
          tempParse?, altParse?, isSkyTok, skyRest?, hall.1, hall.2.1, hall.2.2, hcM]
      · simp at hlen
    · simp +decide [skyRest?] at hr
      subst hr
      simp only [List.all_cons, Bool.and_eq_true] at hall
      obtain ⟨hz, hall⟩ := hall
      have hzM : z ≠ 'M' := pyDigit_ne hz (by decide)
      have hzS : z ≠ '/' := pyDigit_ne hz (by decide)
      rcases rest with _ | ⟨a, _ | ⟨b, _ | ⟨d, rr⟩⟩⟩
      · simp +decide [skyBranch, isTimeTok, isWindTok, splitDigits, vrbSpeed?, endsSM,
          tempParse?, altParse?, isSkyTok, skyRest?, hz, hzM, hzS]
      · simp only [List.all_cons, List.all_nil, Bool.and_true, Bool.and_eq_true] at hall
        have haM : a ≠ 'M' := pyDigit_ne hall (by decide)
        have haS : a ≠ '/' := pyDigit_ne hall (by decide)
        simp +decide [skyBranch, isTimeTok, isWindTok, splitDigits, vrbSpeed?, endsSM,
          tempParse?, altParse?, isSkyTok, skyRest?, hz, hall, haM, haS, hzS]
      · simp only [List.all_cons, List.all_nil, Bool.and_true, Bool.and_eq_true] at hall
        have hbM : b ≠ 'M' := pyDigit_ne hall.2 (by decide)
        simp +decide [skyBranch, isTimeTok, isWindTok, splitDigits, vrbSpeed?, endsSM,
          tempParse?, altParse?, isSkyTok, skyRest?, hz, hall.1, hall.2, hbM, hzS]
      · simp at hlen
  · rename_i x y
    simp only [Bool.and_eq_true, decide_eq_true_eq] at hb
    obtain ⟨rfl, rfl⟩ := hb
    decide
  · exact Bool.noConfusion hb

lemma pyDigit_val_le {c : Char} (h : pyDigit c = true) : digitVal c ≤ 9 := by
  simp only [pyDigit, Bool.or_eq_true, decide_eq_true_eq] at h
  rcases h with ((((((((h | h) | h) | h) | h) | h) | h) | h) | h) | h <;> subst h <;> decide

/-- A decoded ceiling height (hundreds of feet) fits in three digits. -/
lemma ceilHeight_le {t : Tok} {n : Nat} (h : ceilHeight? t = some n) : n ≤ 999 := by
  unfold ceilHeight? at h
  split at h
  · rename_i x y z a b c
    split at h
    · rename_i hcond
      simp only [Bool.and_eq_true, Bool.or_eq_true, decide_eq_true_eq] at hcond
      obtain ⟨⟨⟨hxyz, hda⟩, hdb⟩, hdc⟩ := hcond
      have ha := pyDigit_val_le hda
      have hb := pyDigit_val_le hdb
      have hc := pyDigit_val_le hdc
      cases h
      simp only [digitsToNat, List.foldl]
      omega
    · exact Option.noConfusion h
  · rename_i x y a b c
    split at h
    · rename_i hcond
      simp only [Bool.and_eq_true, decide_eq_true_eq] at hcond
      obtain ⟨⟨⟨⟨rfl, rfl⟩, hda⟩, hdb⟩, hdc⟩ := hcond
      have ha := pyDigit_val_le hda
      have hb := pyDigit_val_le hdb
      have hc := pyDigit_val_le hdc
      cases h
      simp only [digitsToNat, List.foldl]
      omega
    · exact Option.noConfusion h
  · exact Option.noConfusion h

/-- The cross-multiplied comparison agrees with the rational order when the
denominators are positive. -/
lemma PyQ.ltQ_iff {x : PyQ} {a : Int} {b : Nat} (hd : 0 < x.den) (hb : 0 < b) :
    x.ltQ a b = true ↔ x.toRat < (a : ℚ) / (b : ℚ) := by
  unfold PyQ.ltQ PyQ.toRat
  rw [decide_eq_true_eq,
    div_lt_div_iff₀ (by exact_mod_cast hd) (by exact_mod_cast hb)]
  constructor
  · intro h
    exact_mod_cast h
  · intro h
    exact_mod_cast h

/-- The code's flight-category ladder computes the ladder the spec
describes (on the rational value of the visibility). -/
lemma metarCategory_eq_spec (c? : Option Nat) (v : PyQ) (hd : 0 < v.den) :
    metarCategory c? (some v) = specClassify c? (some v.toRat) := by
  have e1 : (v.ltQ 1 2 = true) ↔ v.toRat < 1 / 2 := by
    rw [PyQ.ltQ_iff hd (by norm_num)]
    norm_num
  have e2 : (v.ltQ 1 1 = true) ↔ v.toRat < 1 := by
    rw [PyQ.ltQ_iff hd (by norm_num)]
    norm_num
  have e3 : (v.ltQ 3 1 = true) ↔ v.toRat < 3 := by
    rw [PyQ.ltQ_iff hd (by norm_num)]
    norm_num
  cases c? with
  | some c =>
    unfold metarCategory specClassify
    refine congrArg some (if_congr ?_ rfl (if_congr ?_ rfl (if_congr ?_ rfl rfl)))
    · simp [e1]
    · simp [e2]
    · simp [e3]
  | none =>
    unfold metarCategory specClassify
    exact congrArg some (if_congr e1 rfl (if_congr e2 rfl (if_congr e3 rfl rfl)))

lemma daysInMonth_ge (y m : Nat) : 28 ≤ daysInMonth y m := by
  unfold daysInMonth
  split
  · split <;> omega
  · split <;> omega

/-- Day 8, 23:54 is accepted by `datetime` under every real month/year
context. -/
lemma timeOk_day8 (ctx : Ctx) (h1 : 1 ≤ ctx.year) (h2 : ctx.year ≤ 9999)
    (h3 : 1 ≤ ctx.month) (h4 : ctx.month ≤ 12) : timeOk ctx 8 23 54 = true := by
  have h5 := daysInMonth_ge ctx.year ctx.month
  simp only [timeOk, Bool.and_eq_true, decide_eq_true_eq]
  omega

/-- Claim C1: the flight category is a pure function of
`(ceiling_ft, visibility_sm)` computed by the strict ladder the spec
states: the code's ladder equals the spec's ladder on the rational value
of the visibility (every decoder-built visibility has a positive
denominator), the absent/absent case gives `Unknown` (the absent
category), a ceiling of exactly 1000 with no visibility gives `VFR`, and
the decoded `flight_category` field is exactly this function of the
decoded ceiling and visibility. -/
theorem claim_C1 :
    (∀ (c : Option Nat) (v : PyQ), 0 < v.den →
       metarCategory c (some v) = specClassify c (some v.toRat)) ∧
    (∀ c : Option Nat, metarCategory c none = specClassify c none) ∧
    metarCategory (some 1000) none = some .VFR ∧
    (∀ (ctx : Ctx) (sid raw : List Char) (o : Obs), metarParse ctx sid raw = .ok o →
       o.flight_category = metarCategory o.ceiling_ft o.visibility_sm) := by
  refine ⟨metarCategory_eq_spec, ?_, by decide, ?_⟩
  · intro c
    cases c <;> rfl
  · intro ctx sid raw o h
    obtain ⟨s, hs, rfl⟩ := metarParse_ok h
    rfl

/-- Witness for C1 at the spec's worked example. -/
theorem claim_C1_witness :
    (0 < (⟨4, 1⟩ : PyQ).den) ∧
    metarCategory (some 900) (some ⟨4, 1⟩) =
      specClassify (some 900) (some (PyQ.toRat ⟨4, 1⟩)) ∧
    metarParse ctx0 sid0 rawExample = .ok (obsOf (metarParse ctx0 sid0 rawExample)) ∧
    (obsOf (metarParse ctx0 sid0 rawExample)).flight_category =
      metarCategory (obsOf (metarParse ctx0 sid0 rawExample)).ceiling_ft
        (obsOf (metarParse ctx0 sid0 rawExample)).visibility_sm := by
  have hp : metarParse ctx0 sid0 rawExample = .ok (obsOf (metarParse ctx0 sid0 rawExample)) := by
    decide
  exact ⟨by decide, claim_C1.1 (some 900) ⟨4, 1⟩ (by decide), hp,
         claim_C1.2.2.2 ctx0 sid0 rawExample _ hp⟩

/-- Claim C2: for every successfully decoded report, `ceiling_ft` is 100
times the height of the first token of `BKN`/`OVC`/`VV` shape with a
three-digit height, in token order (`firstCeiling` is literally the first
match, not a minimum), and it is absent when the report has no
`BKN`/`OVC`/`VV` sky-condition token at all. -/
theorem claim_C2 : ∀ (ctx : Ctx) (sid raw : List Char) (o : Obs),
    metarParse ctx sid raw = .ok o →
    o.ceiling_ft = firstCeiling (metarToks raw) ∧
    ((∀ t ∈ metarToks raw, ¬(isSkyTok t = true ∧ startsBOV t = true)) →
       o.ceiling_ft = none) := by
  intro ctx sid raw o h
  obtain ⟨s, hs, rfl⟩ := metarParse_ok h
  obtain ⟨-, -, -, -, hceil, -, -⟩ := metarLoop_fields _ _ _ hs
  have hc : s.ceiling_ft = firstCeiling (metarToks raw) := by
    simpa [initObs] using hceil
  refine ⟨hc, fun hno => ?_⟩
  show s.ceiling_ft = none
  rw [hc]
  refine firstCeiling_none (fun t htk => ?_)
  cases hcc : ceilHeight? t with
  | none => rfl
  | some n =>
    have he := ceil_excl hcc
    exact absurd ⟨he.2.2.2.2.2.2.1, he.2.2.2.2.2.2.2⟩ (hno t htk)

/-- Witness for C2 at the spec's worked example. -/
theorem claim_C2_witness :
    metarParse ctx0 sid0 rawExample = .ok (obsOf (metarParse ctx0 sid0 rawExample)) ∧
    (obsOf (metarParse ctx0 sid0 rawExample)).ceiling_ft = firstCeiling (metarToks rawExample) := by
  have hp : metarParse ctx0 sid0 rawExample = .ok (obsOf (metarParse ctx0 sid0 rawExample)) := by
    decide
  exact ⟨hp, (claim_C2 ctx0 sid0 rawExample _ hp).1⟩

/-- Counterexample for C3: a report that does contain a well-formed,
in-range observation-time group (`082354Z`) is still fatal — its second
time-pattern token `320000Z` has an out-of-range day, so `fetch_metar`
returns `None` — refuting "the absence of an observation-time group is the
only fatal condition". -/
theorem claim_C3_counterexample :
    (("082354Z").toList ∈ metarToks rawBadDay) ∧
    isTimeTok (("082354Z").toList) = true ∧
    timeTokOk ctx0 (("082354Z").toList) = true ∧
    metarFetch ctx0 sid0 rawBadDay = .ok none := by decide

/-- Claim C3 (amended): a decoded report with no `DDHHMMZ` token has
`observation_time` absent while the station id and the cleaned raw text
are preserved, and the caller (`main`) treats such a result as fatal; out
of range day/hour/minute in a present time-pattern token is a further
fatal condition (the counterexample). -/
theorem claim_C3 :
    (∀ (ctx : Ctx) (sid raw : List Char) (o : Obs), metarParse ctx sid raw = .ok o →
       o.station_id = sid ∧ o.raw_metar = cleanRaw raw ∧
       ((∀ t ∈ metarToks raw, isTimeTok t = false) → o.observation_time = none)) ∧
    (∀ (ctx : Ctx) (sid raw : List Char) (mr : Option Obs), metarFetch ctx sid raw = .ok mr →
       (∀ t ∈ metarToks raw, isTimeTok t = false) → callerAccepts mr = false) := by
  constructor
  · intro ctx sid raw o h
    obtain ⟨s, hs, rfl⟩ := metarParse_ok h
    obtain ⟨h1, h2, -, -, -, -, h7⟩ := metarLoop_fields _ _ _ hs
    exact ⟨h1, h2, fun hno => h7 hno⟩
  · intro ctx sid raw mr h hno
    unfold metarFetch at h
    cases hp : metarParse ctx sid raw with
    | ok o =>
      rw [hp] at h
      cases h
      obtain ⟨s, hs, rfl⟩ := metarParse_ok hp
      obtain ⟨-, -, -, -, -, -, h7⟩ := metarLoop_fields _ _ _ hs
      have hobs : s.observation_time = none := h7 hno
      simp [callerAccepts, hobs]
    | error e =>
      rw [hp] at h
      cases e
      · cases h
        rfl
      · exact Except.noConfusion h

/-- Witness for C3 at a report with no time group. -/
theorem claim_C3_witness :
    metarParse ctx0 sid0 (("KCOS NOTIME 12011KT").toList) =
      .ok (obsOf (metarParse ctx0 sid0 (("KCOS NOTIME 12011KT").toList))) ∧
    (∀ t ∈ metarToks (("KCOS NOTIME 12011KT").toList), isTimeTok t = false) ∧
    (obsOf (metarParse ctx0 sid0 (("KCOS NOTIME 12011KT").toList))).observation_time = none := by
  have hp : metarParse ctx0 sid0 (("KCOS NOTIME 12011KT").toList) =
      .ok (obsOf (metarParse ctx0 sid0 (("KCOS NOTIME 12011KT").toList))) := by decide
  have hno : ∀ t ∈ metarToks (("KCOS NOTIME 12011KT").toList), isTimeTok t = false := by decide
  exact ⟨hp, hno, ((claim_C3.1 ctx0 sid0 _ _ hp).2.2 hno)⟩

/-- Claim C4 (code bug): on the two-token visibility sequence
`"1" "1/2SM"` the decoder yields 0.5, not the 1.5 the spec states — the
whole-number token is lost by `str.split()` before the dead
`' ' in vis_str` branch could see it — while the single-token `"1/2SM"`
case correctly yields 0.5.  This theorem evaluates the code at the failing
input. -/
theorem claim_C4 :
    (metarParse ctx0 sid0 rawTwoTokVis).isOk = true ∧
    (obsOf (metarParse ctx0 sid0 rawTwoTokVis)).visibility_sm = some ⟨1, 2⟩ ∧
    PyQ.toRat ⟨1, 2⟩ = 1 / 2 ∧
    PyQ.toRat ⟨1, 2⟩ ≠ 3 / 2 ∧
    (obsOf (metarParse ctx0 sid0 rawFracVis)).visibility_sm = some ⟨1, 2⟩ := by
  refine ⟨by decide, by decide, ?_, ?_, by decide⟩
  · norm_num [PyQ.toRat]
  · norm_num [PyQ.toRat]

/-- Counterexample for C5: on `KCOS 082354Z 10SM` (visibility present, no
ceiling) the two decoders disagree — `metar_logger` classifies `VFR`,
`weather_logger` leaves the category unset — so they are not equivalent on
every output field. -/
theorem claim_C5_counterexample :
    catOf (metarParse ctx0 sid0 rawVisOnly) = some .VFR ∧
    catOf (weatherParse ctx0 sid0 rawVisOnly) = none ∧
    weatherParse ctx0 sid0 rawVisOnly ≠ metarParse ctx0 sid0 rawVisOnly := by decide

/-- Claim C5 (amended): the two decoders agree on every output field
except `flight_category` — `weather_logger`'s result is exactly
`metar_logger`'s with the category recomputed by a ladder that lacks the
visibility-only case, so the categories agree whenever a ceiling is
present or visibility is absent, and `weather_logger` leaves the category
unset when only visibility is present. -/
theorem claim_C5 :
    (∀ (ctx : Ctx) (sid raw : List Char),
       weatherParse ctx sid raw =
         Except.map
           (fun o => { o with
             flight_category := weatherCategory o.ceiling_ft o.visibility_sm })
           (metarParse ctx sid raw)) ∧
    (∀ (c : Option Nat) (v : Option PyQ), c.isSome = true ∨ v = none →
       weatherCategory c v = metarCategory c v) ∧
    (∀ v : PyQ, weatherCategory none (some v) = none) := by
  refine ⟨?_, ?_, fun v => rfl⟩
  · intro ctx sid raw
    unfold weatherParse metarParse
    dsimp only
    rw [weatherLoop_eq]
    cases h : metarLoop ctx (initObs sid (cleanRaw raw)) (metarToks raw) with
    | error e => rfl
    | ok s => rfl
  · intro c v h
    rcases h with h | rfl
    · cases c with
      | none => exact absurd h (by decide)
      | some cc => cases v <;> rfl
    · cases c <;> rfl

/-- Witness for C5 with a ceiling present. -/
theorem claim_C5_witness :
    ((some 900 : Option Nat).isSome = true ∨ (some ⟨4, 1⟩ : Option PyQ) = none) ∧
    weatherCategory (some 900) (some ⟨4, 1⟩) = metarCategory (some 900) (some ⟨4, 1⟩) := by
  have h : (some 900 : Option Nat).isSome = true ∨ (some (⟨4, 1⟩ : PyQ) : Option PyQ) = none :=
    Or.inl rfl
  exact ⟨h, claim_C5.2.1 _ _ h⟩

/-- Counterexample for C6: the "variable" marker is the value 0 itself —
`VRB05KT` and a true `000`-direction group (`00005KT`) store the same
`wind_direction_deg = 0`, which also lies in 0–360, so the marker is not
encoded separately and a fixed direction value is present. -/
theorem claim_C6_counterexample :
    (obsOf (metarParse ctx0 sid0 rawVrb)).wind_direction_deg = some 0 ∧
    (obsOf (metarParse ctx0 sid0 rawCalmDir)).wind_direction_deg = some 0 ∧
    (obsOf (metarParse ctx0 sid0 rawVrb)).wind_direction_deg =
      (obsOf (metarParse ctx0 sid0 rawCalmDir)).wind_direction_deg := by decide

/-- Claim C6 (amended): `VRB05KT` sets `wind_speed_kt = 5` and sets
`wind_direction_deg` to the in-range value 0, reused as the variable
marker and indistinguishable from a true calm/`000` direction reading. -/
theorem claim_C6 :
    (∀ (ctx : Ctx) (s : Obs), metarStep ctx s (("VRB05KT").toList) =
       .ok { s with wind_direction_deg := some 0, wind_speed_kt := some 5 }) ∧
    (obsOf (metarParse ctx0 sid0 rawVrb)).wind_speed_kt = some 5 ∧
    (obsOf (metarParse ctx0 sid0 rawVrb)).wind_gust_kt = none ∧
    (obsOf (metarParse ctx0 sid0 rawVrb)).wind_direction_deg = some 0 := by
  exact ⟨fun ctx s => rfl, by decide, by decide, by decide⟩

/-- Claim C7: decoding the spec's example report under any real
month/year context yields exactly the stated fields (wind 40° at 6 kt, no
gust, visibility 4 sm, phenomena `-SN` then `BR`, ceiling 900 ft,
temperature −1 °C, dewpoint −2 °C, altimeter 29.73 inHg, category MVFR),
and the two-speed wind group `04006G15KT` yields direction 40, speed 6,
gust 15. -/
theorem claim_C7 : ∀ (ctx : Ctx) (sid : List Char), 1 ≤ ctx.year → ctx.year ≤ 9999 →
    1 ≤ ctx.month → ctx.month ≤ 12 →
    metarParse ctx sid rawExample =
      .ok ⟨sid, rawExample, some ⟨ctx.year, ctx.month, 8, 23, 54⟩, some 40, some 6, none,
           some ⟨4, 1⟩, some [("-SN").toList, ("BR").toList], some 900,
           some [("FEW004").toList, ("OVC009").toList], some (-1), some (-2),
           some ⟨2973, 100⟩, some .MVFR⟩ ∧
    PyQ.toRat ⟨4, 1⟩ = 4 ∧ PyQ.toRat ⟨2973, 100⟩ = 2973 / 100 ∧
    metarParse ctx sid rawGust =
      .ok ⟨sid, rawGust, some ⟨ctx.year, ctx.month, 8, 23, 54⟩, some 40, some 6, some 15,
           none, none, none, none, none, none, none, none⟩ := by
  intro ctx sid h1 h2 h3 h4
  have ht := timeOk_day8 ctx h1 h2 h3 h4
  refine ⟨?_, by norm_num [PyQ.toRat], by norm_num [PyQ.toRat], ?_⟩
  · have hclean : cleanRaw rawExample = rawExample := by decide
    have htoks : metarToks rawExample =
        [("KCOS").toList, ("082354Z").toList, ("04006KT").toList, ("4SM").toList,
         ("-SN").toList, ("BR").toList, ("FEW004").toList, ("OVC009").toList,
         ("M01/M02").toList, ("A2973").toList] := by decide
    have hph : phenomena
        [("KCOS").toList, ("082354Z").toList, ("04006KT").toList, ("4SM").toList,
         ("-SN").toList, ("BR").toList, ("FEW004").toList, ("OVC009").toList,
         ("M01/M02").toList, ("A2973").toList] = some [("-SN").toList, ("BR").toList] := by
      decide
    unfold metarParse
    dsimp only
    rw [htoks, hclean, hph]
    simp +decide [metarLoop, metarStep, initObs, timeFields, ht, splitDigits, digitsToNat,
      digitVal, visParse, parseFloat?, parseUFloat?, gustTail?, vrbSpeed?, tempParse?,
      altParse?, ceilHeight?, skyRest?, isSkyTok, startsBOV, endsSM, isTimeTok, isWindTok,
      metarCategory, PyQ.ltQ]
  · have hclean : cleanRaw rawGust = rawGust := by decide
    have htoks : metarToks rawGust =
        [("KCOS").toList, ("082354Z").toList, ("04006G15KT").toList] := by decide
    have hph : phenomena
        [("KCOS").toList, ("082354Z").toList, ("04006G15KT").toList] = none := by decide
    unfold metarParse
    dsimp only
    rw [htoks, hclean, hph]
    simp +decide [metarLoop, metarStep, initObs, timeFields, ht, splitDigits, digitsToNat,
      digitVal, visParse, parseFloat?, parseUFloat?, gustTail?, vrbSpeed?, tempParse?,
      altParse?, ceilHeight?, skyRest?, isSkyTok, startsBOV, endsSM, isTimeTok, isWindTok,
      metarCategory, PyQ.ltQ]

/-- Witness for C7 at the fixed October 2025 context. -/
theorem claim_C7_witness :
    1 ≤ ctx0.year ∧ ctx0.year ≤ 9999 ∧ 1 ≤ ctx0.month ∧ ctx0.month ≤ 12 ∧
    metarParse ctx0 sid0 rawExample =
      .ok ⟨sid0, rawExample, some ⟨2025, 10, 8, 23, 54⟩, some 40, some 6, none,
           some ⟨4, 1⟩, some [("-SN").toList, ("BR").toList], some 900,
           some [("FEW004").toList, ("OVC009").toList], some (-1), some (-2),
           some ⟨2973, 100⟩, some .MVFR⟩ := by
  exact ⟨by decide, by decide, by decide, by decide,
         (claim_C7 ctx0 sid0 (by decide) (by decide) (by decide) (by decide)).1⟩

/-- Counterexample for C8: the decoder does not always degrade to a
partial structure — on `320000Z` (out-of-range day) the whole decode is
aborted and `fetch_metar` returns `None`, and on a zero-denominator
fraction `1/0SM` a `ZeroDivisionError` escapes `metar_logger`'s `except`
clauses (while `weather_logger` swallows it). -/
theorem claim_C8_counterexample :
    metarParse ctx0 sid0 rawBadDay = .error .timeValue ∧
    metarFetch ctx0 sid0 rawBadDay = .ok none ∧
    metarParse ctx0 sid0 rawDivZero = .error .zeroDiv ∧
    metarFetch ctx0 sid0 rawDivZero = .error () ∧
    weatherFetch ctx0 sid0 rawDivZero = none := by decide

/-- Claim C8 (amended): the decode of a report fails in exactly two ways —
`ValueError` from a time-pattern token with out-of-range fields, or
`ZeroDivisionError` from a zero-denominator visibility fraction; on every
report containing neither kind of token the decoder terminates normally
with a (partially populated) structure, unrecognized tokens being skipped;
and the only exception escaping `metar_logger.fetch_metar` is the
division error. -/
theorem claim_C8 : ∀ (ctx : Ctx) (sid raw : List Char),
    (metarParse ctx sid raw = .error .timeValue →
       ∃ t ∈ metarToks raw, isTimeTok t = true ∧ timeTokOk ctx t = false) ∧
    (metarParse ctx sid raw = .error .zeroDiv →
       ∃ t ∈ metarToks raw, divZeroTok t = true) ∧
    ((∀ t ∈ metarToks raw,
        (isTimeTok t = true → timeTokOk ctx t = true) ∧ divZeroTok t = false) →
       ∃ o, metarParse ctx sid raw = .ok o) ∧
    (metarFetch ctx sid raw = .error () ↔ metarParse ctx sid raw = .error .zeroDiv) := by
  have herr : ∀ (ctx : Ctx) (sid raw : List Char) (e : LoopErr),
      metarParse ctx sid raw = .error e →
      metarLoop ctx (initObs sid (cleanRaw raw)) (metarToks raw) = .error e := by
    intro ctx sid raw e h
    unfold metarParse at h
    dsimp only at h
    cases hl : metarLoop ctx (initObs sid (cleanRaw raw)) (metarToks raw) with
    | error e' => rw [hl] at h; exact congrArg Except.error (Except.error.inj h)
    | ok s => rw [hl] at h; exact Except.noConfusion h
  intro ctx sid raw
  refine ⟨?_, ?_, ?_, ?_⟩
  · intro h
    obtain ⟨t, ht, hp⟩ := metarLoop_err _ _ _ (herr _ _ _ _ h)
    rcases hp with ⟨-, h1, h2⟩ | ⟨he, -⟩
    · exact ⟨t, ht, h1, h2⟩
    · exact LoopErr.noConfusion he
  · intro h
    obtain ⟨t, ht, hp⟩ := metarLoop_err _ _ _ (herr _ _ _ _ h)
    rcases hp with ⟨he, -, -⟩ | ⟨-, h2⟩
    · exact LoopErr.noConfusion he
    · exact ⟨t, ht, h2⟩
  · intro hall
    obtain ⟨s, hs⟩ := metarLoop_ok_of hall
    exact ⟨_, metarParse_ok_of hs⟩
  · unfold metarFetch
    cases hp : metarParse ctx sid raw with
    | ok o => simp
    | error e => cases e <;> simp


/-- Witness for C8 at the zero-denominator report. -/
theorem claim_C8_witness :
    metarParse ctx0 sid0 rawDivZero = .error .zeroDiv ∧
    (∃ t ∈ metarToks rawDivZero, divZeroTok t = true) := by
  have h : metarParse ctx0 sid0 rawDivZero = .error .zeroDiv := by decide
  exact ⟨h, (claim_C8 ctx0 sid0 rawDivZero).2.1 h⟩

/-- Claim C9: both decoders are deterministic — equal raw text, station id
and month/year context give equal results (the shallow embedding carries
no hidden state; the only ambient input of the source, `datetime.now()`,
is the supplied context). -/
theorem claim_C9 : ∀ (c1 c2 : Ctx) (s1 s2 r1 r2 : List Char),
    c1 = c2 → s1 = s2 → r1 = r2 →
    metarParse c1 s1 r1 = metarParse c2 s2 r2 ∧
    weatherParse c1 s1 r1 = weatherParse c2 s2 r2 := by
  intro c1 c2 s1 s2 r1 r2 hc hs hr
  subst hc
  subst hs
  subst hr
  exact ⟨rfl, rfl⟩

/-- Witness for C9 at the worked example. -/
theorem claim_C9_witness :
    ctx0 = ctx0 ∧ sid0 = sid0 ∧ rawExample = rawExample ∧
    metarParse ctx0 sid0 rawExample = metarParse ctx0 sid0 rawExample := by
  exact ⟨rfl, rfl, rfl, (claim_C9 ctx0 ctx0 sid0 sid0 rawExample rawExample rfl rfl rfl).1⟩

/-- Claim C10: whenever `ceiling_ft` is set it is 100 times the
three-digit height of some `BKN`/`OVC`/`VV` token of the report (hence a
multiple of 100 in 0–99900), and a `BKN`/`OVC`/`VV` sky-condition token
whose height has fewer than three digits is still appended to the
sky-condition display list but never provides the ceiling. -/
theorem claim_C10 : ∀ (ctx : Ctx) (sid raw : List Char) (o : Obs),
    metarParse ctx sid raw = .ok o →
    (∀ n, o.ceiling_ft = some n →
       n % 100 = 0 ∧ n ≤ 99900 ∧
       ∃ t ∈ metarToks raw, ∃ ht, ceilHeight? t = some ht ∧ n = ht * 100) ∧
    (∀ t ∈ metarToks raw, isSkyTok t = true → startsBOV t = true →
       ceilHeight? t = none → ∃ l, o.sky_condition = some l ∧ t ∈ l) := by
  intro ctx sid raw o h
  obtain ⟨s, hs, rfl⟩ := metarParse_ok h
  obtain ⟨-, -, -, -, hceil, hsky, -⟩ := metarLoop_fields _ _ _ hs
  constructor
  · intro n hn
    have hc : s.ceiling_ft = firstCeiling (metarToks raw) := by
      simpa [initObs] using hceil
    have hfc : firstCeiling (metarToks raw) = some n := by
      rw [← hc]
      exact hn
    obtain ⟨t, htk, ht, hth, rfl⟩ := firstCeiling_some hfc
    have hle := ceilHeight_le hth
    exact ⟨by omega, by omega, t, htk, ht, hth, rfl⟩
  · intro t htk h1 h2 h3
    have hb := skyBranch_of_BOV h1 h2
    have hmem : t ∈ (metarToks raw).filter skyBranch :=
      List.mem_filter.mpr ⟨htk, hb⟩
    have hsk : s.sky_condition = some ((metarToks raw).filter skyBranch) := by
      have hne : (metarToks raw).filter skyBranch ≠ [] := by
        intro hemp
        rw [hemp] at hmem
        exact List.not_mem_nil t hmem
      simpa [initObs, hne] using hsky
    exact ⟨(metarToks raw).filter skyBranch, hsk, hmem⟩

/-- Witness for C10 at a report whose first `BKN` layer has a two-digit
height. -/
theorem claim_C10_witness :
    metarParse ctx0 sid0 rawShortSky = .ok (obsOf (metarParse ctx0 sid0 rawShortSky)) ∧
    (obsOf (metarParse ctx0 sid0 rawShortSky)).ceiling_ft = some 3000 ∧
    3000 % 100 = 0 ∧ 3000 ≤ 99900 ∧
    (∃ t ∈ metarToks rawShortSky, ∃ ht, ceilHeight? t = some ht ∧ 3000 = ht * 100) := by
  have hp : metarParse ctx0 sid0 rawShortSky =
      .ok (obsOf (metarParse ctx0 sid0 rawShortSky)) := by decide
  have hc : (obsOf (metarParse ctx0 sid0 rawShortSky)).ceiling_ft = some 3000 := by decide
  have hmain := (claim_C10 ctx0 sid0 rawShortSky _ hp).1 3000 hc
  exact ⟨hp, hc, hmain.1, hmain.2.1, hmain.2.2⟩

end MetarSpec
